import Mathlib

/-!
Shallow embedding of the smart routing engine of `internal/providers/smart_router.go`
(repository `goclit-ai`).

Conventions of the embedding:
* Go `int` / `int64` / `time.Duration` fields are modelled as `Int` (unbounded,
  matching the program's actual range of use; no overflow is relevant to the
  claims below).
* Go `float64` fields (`InputCost`, `OutputCost`, `QuotaReservePercent`, and the
  quota ratio) are modelled as exact rationals `ℚ`; the order comparisons used
  by the router are the same.
* Go `time.Time` values are modelled as `Int` timestamps; `Before` is `<`.
* Go maps (`providers`, `models`, `quotaPool`, `rareModels`) are modelled as
  association lists keyed by `String`; `*Provider` pointers stored in the
  availability index are modelled as the provider's key into the `providers`
  map, so that mutations of a provider record are seen through the index,
  exactly as pointer sharing behaves in the source.
* `sort.Slice` is modelled as an insertion sort parameterised by the same
  `less` comparator; the claims proved below depend only on the comparator
  itself and on the sorted list being a permutation-preserving rearrangement,
  never on the order chosen among comparator-ties.
-/

set_option autoImplicit false

set_option allowUnsafeReducibility true
attribute [semireducible] Rat.mul Rat.add Rat.sub Rat.inv

namespace GoclitRouter

/-- Status of a provider account, from `ProviderStatus` in the source. -/
inductive ProviderStatus where
  | active
  | rateLimited
  | quotaExhausted
  | error
  | disabled
deriving DecidableEq, Repr

/-- Kind of capability, from `ModelType` in the source. -/
inductive ModelType where
  | llm
  | stt
  | tts
  | embedding
  | image
deriving DecidableEq, Repr

/-- Quota record of a provider, from `Quota` in the source. -/
structure Quota where
  requestsPerMinute : Int
  requestsPerDay : Int
  tokensPerMinute : Int
  tokensPerDay : Int
  usedRequests : Int
  usedTokens : Int
  resetTime : Int
deriving DecidableEq, Repr

/-- An AI model (capability), from `Model` in the source. -/
structure Model where
  id : String
  name : String
  provider : String
  type : ModelType
  contextSize : Int
  inputCost : ℚ
  outputCost : ℚ
  isRare : Bool
deriving DecidableEq, Repr

/-- A provider account, from `Provider` in the source.  `ProviderType` is a Go
string type; it is modelled as `String`. -/
structure Provider where
  name : String
  type : String
  apiKey : String
  baseURL : String
  models : List Model
  quota : Quota
  status : ProviderStatus
  lastUsed : Int
  errorCount : Int
  latency : Int
deriving DecidableEq, Repr

/-- An entry of the availability index, from `ModelAvailability` in the source.
The Go field `Provider *Provider` is modelled by the provider's map key. -/
structure ModelAvailability where
  providerName : String
  model : Model
  isExclusive : Bool
  priority : Int
deriving DecidableEq, Repr

/-- Pooled quota over the providers sharing a model, from `QuotaPool`. -/
structure QuotaPool where
  model : String
  totalRequests : Int
  totalTokens : Int
  availableRequests : Int
  availableTokens : Int
  providers : List String
deriving DecidableEq, Repr

/-- One usage fact, from `UsageRecord` in the source. -/
structure UsageRecord where
  time : Int
  provider : String
  model : String
  tokens : Int
  latency : Int
  success : Bool
deriving DecidableEq, Repr

/-- Router configuration, from `RouterConfig` in the source. -/
structure RouterConfig where
  preferFree : Bool
  preferFast : Bool
  preferCheap : Bool
  maxLatencyMs : Int
  fallbackEnabled : Bool
  quotaReservePercent : ℚ
deriving DecidableEq, Repr

/-- Full mutable state of a `SmartRouter`. -/
structure RouterState where
  providers : List (String × Provider)
  models : List (String × List ModelAvailability)
  quotaPool : List (String × QuotaPool)
  rareModels : List (String × String)
  usageHistory : List UsageRecord
  config : RouterConfig
deriving DecidableEq, Repr

/-- Lookup in an association list (Go map read `m[k]` with its `ok` flag). -/
def lookupA {α : Type} : List (String × α) → String → Option α
  | [], _ => none
  | (k, v) :: rest, key => if k = key then some v else lookupA rest key

/-- Replace the value stored at a key (Go mutation through a map entry). -/
def updateA {α : Type} : List (String × α) → String → α → List (String × α)
  | [], _, _ => []
  | (k, v) :: rest, key, nv =>
      if k = key then (k, nv) :: rest else (k, v) :: updateA rest key nv

/-- Insertion step of the sort modelling `sort.Slice`. -/
def insertBy {α : Type} (less : α → α → Bool) (a : α) : List α → List α
  | [] => [a]
  | b :: bs => if less b a then b :: insertBy less a bs else a :: b :: bs

/-- Deterministic comparison sort modelling `sort.Slice` with comparator `less`. -/
def sortBy {α : Type} (less : α → α → Bool) : List α → List α
  | [] => []
  | a :: as => insertBy less a (sortBy less as)

/-- Go `int(x)` conversion of a float: truncation toward zero. -/
def ratTrunc (q : ℚ) : Int :=
  if q < 0 then Rat.ceil q else Rat.floor q

/-- Translation of `SmartRouter.providerHasRareModels`: whether some rare model
names this provider as its exclusive source. -/
def providerHasRareModels (s : RouterState) (providerName : String) : Bool :=
  s.rareModels.any (fun kv => kv.2 = providerName)

/-- Translation of `SmartRouter.quotaRemaining`: fraction of daily request
quota remaining, a zero daily limit meaning unlimited (ratio 1). -/
def quotaRemaining (p : Provider) : ℚ :=
  if p.quota.requestsPerDay = 0 then 1
  else ((p.quota.requestsPerDay - p.quota.usedRequests : Int) : ℚ) / ((p.quota.requestsPerDay : Int) : ℚ)

/-- Translation of `SmartRouter.isProviderAvailable`: the admissibility check
of a provider for a request with the given token estimate. -/
def isProviderAvailable (s : RouterState) (p : Provider) (tokenEstimate : Int) : Bool :=
  if p.status ≠ ProviderStatus.active then false
  else if p.quota.requestsPerDay ≤ p.quota.usedRequests then false
  else if 0 < p.quota.tokensPerDay ∧ p.quota.tokensPerDay < p.quota.usedTokens + tokenEstimate then false
  else if providerHasRareModels s p.name then
    let reserve : Int := ratTrunc (((p.quota.requestsPerDay : Int) : ℚ) * s.config.quotaReservePercent)
    if p.quota.requestsPerDay - reserve ≤ p.quota.usedRequests then false
    else true
  else true

/-- Combined input/output cost of an availability entry's model copy, as read
by rule 5 of the comparator. -/
def entryCost (x : ModelAvailability × Provider) : ℚ :=
  x.1.model.inputCost + x.1.model.outputCost

/-- Rules 5 and 6 of the comparator of `SmartRouter.rankProviders` (cost
preference, then least-recently-used tiebreak). -/
def rpCostStep (s : RouterState) (x y : ModelAvailability × Provider) : Bool :=
  if s.config.preferCheap then
    if entryCost x = entryCost y then decide (x.2.lastUsed < y.2.lastUsed)
    else decide (entryCost x < entryCost y)
  else decide (x.2.lastUsed < y.2.lastUsed)

/-- Rules 3 and 4 of the comparator of `SmartRouter.rankProviders`
(remaining-quota ratio, then the optional latency preference), falling
through to rules 5 and 6. -/
def rpQuotaStep (s : RouterState) (x y : ModelAvailability × Provider) : Bool :=
  if quotaRemaining x.2 = quotaRemaining y.2 then
    if s.config.preferFast then
      if x.2.latency = y.2.latency then rpCostStep s x y
      else decide (x.2.latency < y.2.latency)
    else rpCostStep s x y
  else decide (quotaRemaining y.2 < quotaRemaining x.2)

/-- Translation of the comparator closure passed to `sort.Slice` inside
`SmartRouter.rankProviders`.  A candidate is a resolved pair of an
availability entry and the provider record its pointer refers to. -/
def rpLess (s : RouterState) (x y : ModelAvailability × Provider) : Bool :=
  let iHasRare := providerHasRareModels s x.2.name
  let jHasRare := providerHasRareModels s y.2.name
  if iHasRare && !jHasRare && !x.1.isExclusive then false
  else if jHasRare && !iHasRare && !y.1.isExclusive then true
  else if x.1.isExclusive then true
  else if y.1.isExclusive then false
  else rpQuotaStep s x y

/-- Rank of a candidate under rules 1 and 2 of the comparator: the exclusive
entry for the requested capability first, then providers free of any
rare-capability burden, then burdened providers. -/
def classRank (s : RouterState) (x : ModelAvailability × Provider) : Nat :=
  if x.1.isExclusive then 0 else if providerHasRareModels s x.2.name then 2 else 1

/-- Full lexicographic sort key realised by the comparator: class rank, then
negated remaining-quota ratio, then the optional latency and cost criteria
(constant when the corresponding preference flag is off), then the last-used
timestamp. -/
def rankKey (s : RouterState) (x : ModelAvailability × Provider) :
    Nat × ℚ × Int × ℚ × Int :=
  (classRank s x, -(quotaRemaining x.2),
   if s.config.preferFast then x.2.latency else 0,
   if s.config.preferCheap then entryCost x else 0,
   x.2.lastUsed)

/-- Strict lexicographic order on sort keys. -/
def keyLt (a b : Nat × ℚ × Int × ℚ × Int) : Prop :=
  a.1 < b.1 ∨ a.1 = b.1 ∧ (a.2.1 < b.2.1 ∨ a.2.1 = b.2.1 ∧
    (a.2.2.1 < b.2.2.1 ∨ a.2.2.1 = b.2.2.1 ∧
      (a.2.2.2.1 < b.2.2.2.1 ∨ a.2.2.2.1 = b.2.2.2.1 ∧ a.2.2.2.2 < b.2.2.2.2)))

/-- Resolution of availability entries to (entry, provider record) pairs:
the dereference of the `*Provider` pointers held by the index. -/
def resolveEntries (s : RouterState) (l : List ModelAvailability) : List (ModelAvailability × Provider) :=
  l.filterMap (fun a => (lookupA s.providers a.providerName).map (fun p => (a, p)))

/-- Translation of `SmartRouter.rankProviders` on resolved candidates. -/
def rankProviders (s : RouterState) (l : List (ModelAvailability × Provider)) :
    List (ModelAvailability × Provider) :=
  sortBy (rpLess s) l

/-- The two failure kinds of `Route`: `model not found: ...` and
`no available provider for model: ...`. -/
inductive RouteError where
  | modelNotFound
  | noAvailableProvider
deriving DecidableEq, Repr

/-- Outcome of `Route`: a provider record or a typed failure. -/
inductive RouteResult where
  | ok (p : Provider)
  | err (e : RouteError)
deriving DecidableEq, Repr

/-- Translation of `SmartRouter.Route`: select the best provider for a model
request.  A pure read of the state. -/
def Route (s : RouterState) (modelID : String) (tokenEstimate : Int) : RouteResult :=
  match lookupA s.models modelID with
  | none => RouteResult.err RouteError.modelNotFound
  | some avails =>
    if avails.isEmpty then RouteResult.err RouteError.modelNotFound
    else
      let ranked := rankProviders s (resolveEntries s avails)
      match ranked.find? (fun ap => isProviderAvailable s ap.2 tokenEstimate) with
      | some ap => RouteResult.ok ap.2
      | none => RouteResult.err RouteError.noAvailableProvider

/-- Translation of the provider-statistics update performed by
`SmartRouter.RecordUsage` on the record looked up in the providers map:
last-used timestamp, quota counters, rolling latency, error count and the
status transition to `error`.  `Int.tdiv` is Go's truncated integer division. -/
def updateProviderStats (p : Provider) (tokens latency : Int) (success : Bool) (now : Int) : Provider :=
  let p1 : Provider :=
    { p with
      lastUsed := now
      quota := { p.quota with
        usedRequests := p.quota.usedRequests + 1
        usedTokens := p.quota.usedTokens + tokens } }
  let p2 : Provider :=
    if p1.latency = 0 then { p1 with latency := latency }
    else { p1 with latency := Int.tdiv (p1.latency + latency) 2 }
  if success then p2
  else
    let p3 : Provider := { p2 with errorCount := p2.errorCount + 1 }
    if 3 < p3.errorCount then { p3 with status := ProviderStatus.error } else p3

/-- Bounding of the usage history at the tail of `RecordUsage`: keep at most
1000 records, dropping the oldest 100 in one batch on overflow. -/
def trimHistory (h : List UsageRecord) : List UsageRecord :=
  if 1000 < h.length then h.drop 100 else h

/-- Translation of `SmartRouter.RecordUsage`. -/
def recordUsage (s : RouterState) (providerName modelID : String)
    (tokens latency : Int) (success : Bool) (now : Int) : RouterState :=
  let providers' :=
    match lookupA s.providers providerName with
    | some p => updateA s.providers providerName (updateProviderStats p tokens latency success now)
    | none => s.providers
  { s with
    providers := providers'
    usageHistory := trimHistory (s.usageHistory ++
      [{ time := now, provider := providerName, model := modelID,
         tokens := tokens, latency := latency, success := success }]) }

/-- The usage record appended by `RecordUsage`. -/
def usageRec (now : Int) (providerName modelID : String) (tokens latency : Int)
    (success : Bool) : UsageRecord :=
  { time := now, provider := providerName, model := modelID,
    tokens := tokens, latency := latency, success := success }

/-- Marking step applied by `identifyRareModels` to a capability's entry list:
a singleton entry gets `IsExclusive` and its embedded model copy gets `IsRare`. -/
def markEntry : List ModelAvailability → List ModelAvailability
  | [a] => [{ a with isExclusive := true, model := { a.model with isRare := true } }]
  | l => l

/-- Translation of `SmartRouter.identifyRareModels`: record every singleton
capability in the rare-models map and flag its index entry. -/
def identifyRareModels (s : RouterState) : RouterState :=
  { s with
    models := s.models.map (fun kv => (kv.1, markEntry kv.2))
    rareModels := s.rareModels ++ s.models.filterMap (fun kv =>
      match kv.2 with
      | [a] => some (kv.1, a.providerName)
      | _ => none) }

/-! Concrete sample data used by witnesses and counterexamples. -/

/-- Default configuration: all preferences off, no reserve. -/
def cfg0 : RouterConfig :=
  { preferFree := false, preferFast := false, preferCheap := false,
    maxLatencyMs := 0, fallbackEnabled := false, quotaReservePercent := 0 }

/-- Sample model record. -/
def mdl (id : String) (inCost outCost : ℚ) (rare : Bool) : Model :=
  { id := id, name := id, provider := "", type := ModelType.llm,
    contextSize := 8, inputCost := inCost, outputCost := outCost, isRare := rare }

/-- Sample quota with a daily request limit and usage counters. -/
def quo (perDay used : Int) (tokDay usedTok : Int) : Quota :=
  { requestsPerMinute := 0, requestsPerDay := perDay, tokensPerMinute := 0,
    tokensPerDay := tokDay, usedRequests := used, usedTokens := usedTok, resetTime := 0 }

/-- Sample provider record. -/
def prov (name : String) (q : Quota) (st : ProviderStatus) (lu lat ec : Int) : Provider :=
  { name := name, type := "openai", apiKey := "", baseURL := "",
    models := [], quota := q, status := st, lastUsed := lu, errorCount := ec, latency := lat }

/-- Provider of the C3 scenario: exclusive source of rare model `R`,
past the reserve line but under the raw daily ceiling. -/
def pC3 : Provider := prov "p3" (quo 100 85 0 0) ProviderStatus.active 0 0 0

/-- Availability entry of rare model `R` on `pC3`. -/
def eR : ModelAvailability :=
  { providerName := "p3", model := mdl "R" 0 0 true, isExclusive := true, priority := 0 }

/-- State of the C3 scenario: one provider, one rare model, 20% reserve. -/
def sC3 : RouterState :=
  { providers := [("p3", pC3)], models := [("R", [eR])], quotaPool := [],
    rareModels := [("R", "p3")], usageHistory := [],
    config := { cfg0 with quotaReservePercent := 1/5 } }

/-- Provider of the witness scenarios: healthy, one common model. -/
def pw : Provider := prov "w" (quo 10 0 0 0) ProviderStatus.active 0 0 0

/-- Availability entry of common model `m1` on `pw`. -/
def ew : ModelAvailability :=
  { providerName := "w", model := mdl "m1" 0 0 false, isExclusive := false, priority := 0 }

/-- Witness state: one healthy provider offering one common model. -/
def sW1 : RouterState :=
  { providers := [("w", pw)], models := [("m1", [ew])], quotaPool := [],
    rareModels := [], usageHistory := [], config := cfg0 }

/-- Provider with three prior failures, for the C2 witness. -/
def pErr3 : Provider := prov "e" (quo 10 0 0 0) ProviderStatus.active 0 0 3

/-- Disabled provider, for the C2 witness. -/
def pDis : Provider := prov "d" (quo 10 0 0 0) ProviderStatus.disabled 0 0 0

/-- Provider with a nonzero stored latency average, for the C4 counterexample. -/
def pLat : Provider := prov "q" (quo 10 0 0 0) ProviderStatus.active 0 10 0

/-- Provider with a zero daily request limit, for the C9 witness. -/
def pZero : Provider := prov "z" (quo 0 0 0 0) ProviderStatus.active 0 0 0

/-- First of two criteria-identical providers, for the C6 counterexample. -/
def pa : Provider := prov "a" (quo 10 0 0 0) ProviderStatus.active 0 0 0

/-- Second criteria-identical provider (same stats as `pa`, later last-used
variant `pb1` is used for the C6 witness chain). -/
def pb : Provider := prov "b" (quo 10 0 0 0) ProviderStatus.active 0 0 0

/-- Provider `b` with last-used timestamp 1, for the C6 witness. -/
def pb1 : Provider := prov "b" (quo 10 0 0 0) ProviderStatus.active 1 0 0

/-- Provider `c` with last-used timestamp 2, for the C6 witness. -/
def pcv : Provider := prov "c" (quo 10 0 0 0) ProviderStatus.active 2 0 0

/-- Availability entry of model `m` on provider `a`. -/
def ea : ModelAvailability :=
  { providerName := "a", model := mdl "m" 0 0 false, isExclusive := false, priority := 0 }

/-- Availability entry of model `m` on provider `b`. -/
def eb : ModelAvailability :=
  { providerName := "b", model := mdl "m" 0 0 false, isExclusive := false, priority := 0 }

/-- Availability entry of model `m` on provider `c`. -/
def ec : ModelAvailability :=
  { providerName := "c", model := mdl "m" 0 0 false, isExclusive := false, priority := 0 }

/-- State with two criteria-identical candidates for model `m`. -/
def sTie : RouterState :=
  { providers := [("a", pa), ("b", pb)], models := [("m", [ea, eb])], quotaPool := [],
    rareModels := [], usageHistory := [], config := cfg0 }

/-- Availability entry of model `R` before rare-marking, for the C10 witness. -/
def eR0 : ModelAvailability :=
  { providerName := "p3", model := mdl "R" 0 0 false, isExclusive := false, priority := 0 }

/-- State before rare-marking: one provider exclusively offering `R`. -/
def sPre : RouterState :=
  { providers := [("p3", pC3)], models := [("R", [eR0])], quotaPool := [],
    rareModels := [], usageHistory := [], config := cfg0 }

/-! ## Helper lemmas -/

/-- Membership is preserved by the insertion step of the sort. -/
theorem mem_insertBy {α : Type} (less : α → α → Bool) (a x : α) (l : List α) :
    x ∈ insertBy less a l ↔ x = a ∨ x ∈ l := by
  induction l with
  | nil => simp [insertBy]
  | cons b bs ih =>
    simp only [insertBy]
    split
    · simp only [List.mem_cons, ih]
      tauto
    · simp only [List.mem_cons]

/-- The sort modelling `sort.Slice` preserves membership. -/
theorem mem_sortBy {α : Type} (less : α → α → Bool) (x : α) (l : List α) :
    x ∈ sortBy less l ↔ x ∈ l := by
  induction l with
  | nil => simp [sortBy]
  | cons a as ih => simp [sortBy, mem_insertBy, ih]

/-- Lookup commutes with a value-wise map of an association list. -/
theorem lookupA_map {α β : Type} (f : α → β) (l : List (String × α)) (k : String) :
    lookupA (l.map (fun kv => (kv.1, f kv.2))) k = (lookupA l k).map f := by
  induction l with
  | nil => simp [lookupA]
  | cons kv rest ih =>
    simp only [List.map, lookupA]
    split
    · rfl
    · exact ih

/-- An admissible provider is in `active` status (first guard of
`isProviderAvailable`). -/
theorem available_status (s : RouterState) (p : Provider) (n : Int)
    (h : isProviderAvailable s p n = true) : p.status = ProviderStatus.active := by
  by_cases hs : p.status = ProviderStatus.active
  · exact hs
  · simp [isProviderAvailable, hs] at h

/-- A provider returned by `Route` passed the admissibility check. -/
theorem route_ok_available (s : RouterState) (mid : String) (n : Int) (q : Provider)
    (h : Route s mid n = RouteResult.ok q) : isProviderAvailable s q n = true := by
  unfold Route at h
  rcases hm : lookupA s.models mid with _ | l
  · rw [hm] at h
    exact absurd h (by simp)
  · rw [hm] at h
    rcases l with _ | ⟨a, as⟩
    · simp at h
    · simp only [List.isEmpty_cons, Bool.false_eq_true, if_false] at h
      rcases hf : (rankProviders s (resolveEntries s (a :: as))).find?
          (fun ap => isProviderAvailable s ap.2 n) with _ | ap
      · rw [hf] at h
        simp at h
      · rw [hf] at h
        have hap : isProviderAvailable s ap.2 n = true := by
          have := List.find?_some hf
          simpa using this
        have hq : ap.2 = q := by
          simpa [RouteResult.ok.injEq] using h
        rwa [hq] at hap

/-- Changing only the latency/cost preference flags does not affect the
admissibility check. -/
theorem isAvail_pref_flags (s : RouterState) (pf pc : Bool) (p : Provider) (n : Int) :
    isProviderAvailable
        { s with config := { s.config with preferFast := pf, preferCheap := pc } } p n
      = isProviderAvailable s p n := by
  cases s with
  | mk provs mods qps rares hist cfg => cases cfg; rfl

/-- Route on a capability with a single availability entry returns that
entry's provider whenever it is admissible. -/
theorem route_single (s : RouterState) (mid : String) (n : Int)
    (e : ModelAvailability) (p : Provider)
    (hm : lookupA s.models mid = some [e])
    (hp : lookupA s.providers e.providerName = some p)
    (ha : isProviderAvailable s p n = true) :
    Route s mid n = RouteResult.ok p := by
  unfold Route
  rw [hm]
  simp [resolveEntries, hp, rankProviders, sortBy, insertBy, List.find?, ha]

/-! ## Claim theorems -/

/-- C1: for a capability whose availability list holds exactly one entry, if
that entry's provider passes the admissibility check for the request, `Route`
returns that provider, for every setting of the `PreferFast` and `PreferCheap`
configuration flags. -/
theorem c1_single_provider_route (s : RouterState) (mid : String) (n : Int)
    (e : ModelAvailability) (p : Provider) (pf pc : Bool)
    (hm : lookupA s.models mid = some [e])
    (hp : lookupA s.providers e.providerName = some p)
    (ha : isProviderAvailable s p n = true) :
    Route { s with config := { s.config with preferFast := pf, preferCheap := pc } } mid n
      = RouteResult.ok p := by
  exact route_single
    { s with config := { s.config with preferFast := pf, preferCheap := pc } } mid n e p
    hm hp (by rw [isAvail_pref_flags]; exact ha)

/-- Witness for C1 at a concrete one-provider state. -/
theorem c1_single_provider_route_witness :
    Route { sW1 with config := { sW1.config with preferFast := true, preferCheap := true } } "m1" 1
      = RouteResult.ok pw :=
  c1_single_provider_route sW1 "m1" 1 ew pw true true (by decide) (by decide) (by decide)

/-- C2: a fourth recorded failure (cumulative failure count at least 3 before
the call) moves the provider to `error` status; `Route` only ever returns
providers in `active` status; and no `RecordUsage` call ever moves a
non-active provider back to `active`, so an errored provider is never routed
to until its status is changed externally. -/
theorem c2_error_threshold_and_never_routed :
    (∀ (p : Provider) (t l now : Int), 3 ≤ p.errorCount →
        (updateProviderStats p t l false now).status = ProviderStatus.error) ∧
    (∀ (s : RouterState) (mid : String) (n : Int) (q : Provider),
        Route s mid n = RouteResult.ok q → q.status = ProviderStatus.active) ∧
    (∀ (p : Provider) (t l now : Int) (b : Bool), p.status ≠ ProviderStatus.active →
        (updateProviderStats p t l b now).status ≠ ProviderStatus.active) := by
  refine ⟨?_, ?_, ?_⟩
  · intro p t l now h
    unfold updateProviderStats
    have h4 : 3 < p.errorCount + 1 := by omega
    simp only [Bool.false_eq_true, if_false]
    split <;> simp [h4]
  · intro s mid n q h
    exact available_status s q n (route_ok_available s mid n q h)
  · intro p t l now b h
    unfold updateProviderStats
    cases b <;> simp only [if_true, Bool.false_eq_true, if_false]
    · split <;> split <;> simp_all
    · split <;> simp_all

/-- Witness for C2: the threshold transition, an active routed provider, and
status stickiness, each at a concrete input. -/
theorem c2_error_threshold_and_never_routed_witness :
    (updateProviderStats pErr3 0 0 false 0).status = ProviderStatus.error ∧
    pw.status = ProviderStatus.active ∧
    (updateProviderStats pDis 0 0 true 0).status ≠ ProviderStatus.active :=
  ⟨c2_error_threshold_and_never_routed.1 pErr3 0 0 0 (by decide),
   c2_error_threshold_and_never_routed.2.1 sW1 "m1" 1 pw (by decide),
   c2_error_threshold_and_never_routed.2.2 pDis 0 0 0 true (by decide)⟩

/-- C4 counterexample: a `RecordUsage` call with `success = false` changes the
stored latency average (10 becomes 15 after a sample of 20), refuting the
claim that failures leave the rolling latency unchanged. -/
theorem c4_failure_updates_latency_counterexample :
    pLat.latency = 10 ∧
    (updateProviderStats pLat 0 20 false 0).latency = 15 ∧ (15 : Int) ≠ 10 := by
  decide

/-- C4 amended: every `RecordUsage` call updates the rolling latency by
`new = (old = 0 ? sample : (old + sample) / 2)`, regardless of the success
flag; in particular the update applied on failure equals the one applied on
success. -/
theorem c4_latency_update_unconditional (p : Provider) (t l now : Int) (b : Bool) :
    (updateProviderStats p t l b now).latency
        = (if p.latency = 0 then l else Int.tdiv (p.latency + l) 2) ∧
    (updateProviderStats p t l false now).latency
        = (updateProviderStats p t l true now).latency := by
  constructor
  · cases b <;> unfold updateProviderStats <;> dsimp only <;>
      (repeat' split) <;> simp_all
  · unfold updateProviderStats
    dsimp only
    repeat' split
    all_goals simp_all

/-- C5: `Route` fails with `modelNotFound` exactly when the availability
index has no entry list (or an empty one) for the capability; when entries
exist but none passes the admissibility check it fails with the distinct
`noAvailableProvider` error; and an unknown capability never produces
`noAvailableProvider`. -/
theorem c5_route_error_taxonomy (s : RouterState) (mid : String) (n : Int) :
    (Route s mid n = RouteResult.err RouteError.modelNotFound ↔
      (lookupA s.models mid = none ∨ lookupA s.models mid = some [])) ∧
    (∀ l, lookupA s.models mid = some l → l ≠ [] →
      (∀ ap ∈ resolveEntries s l, isProviderAvailable s ap.2 n = false) →
      Route s mid n = RouteResult.err RouteError.noAvailableProvider) ∧
    (lookupA s.models mid = none →
      Route s mid n ≠ RouteResult.err RouteError.noAvailableProvider) := by
  refine ⟨?_, ?_, ?_⟩
  · rcases h : lookupA s.models mid with _ | l
    · simp [Route, h]
    · rcases l with _ | ⟨a, as⟩
      · simp [Route, h]
      · rcases hf : (rankProviders s (resolveEntries s (a :: as))).find?
            (fun ap => isProviderAvailable s ap.2 n) with _ | ap
        · simp [Route, h, hf]
        · simp [Route, h, hf]
  · intro l hl hne hall
    rcases l with _ | ⟨a, as⟩
    · exact absurd rfl hne
    · have hfind : (rankProviders s (resolveEntries s (a :: as))).find?
          (fun ap => isProviderAvailable s ap.2 n) = none := by
        rw [List.find?_eq_none]
        intro x hx
        have hx2 : x ∈ resolveEntries s (a :: as) :=
          (mem_sortBy (rpLess s) x (resolveEntries s (a :: as))).mp hx
        simp [hall x hx2]
      simp [Route, hl, hfind]
  · intro h hcontra
    simp [Route, h] at hcontra

/-- Witness for C5: an unknown capability yields `modelNotFound`, and a known
capability whose only provider is walled off yields `noAvailableProvider`. -/
theorem c5_route_error_taxonomy_witness :
    Route sW1 "zzz" 1 = RouteResult.err RouteError.modelNotFound ∧
    Route sC3 "R" 1 = RouteResult.err RouteError.noAvailableProvider :=
  ⟨(c5_route_error_taxonomy sW1 "zzz" 1).1.mpr (Or.inl (by decide)),
   (c5_route_error_taxonomy sC3 "R" 1).2.1 [eR] (by decide) (by decide) (by decide)⟩

/-- C7: under the reachable-state invariant that the usage history holds at
most 1000 records, `RecordUsage` preserves the bound; the new history is the
appended sequence trimmed in one batch: exactly the oldest 100 records are
dropped when the append exceeds 1000, and nothing is dropped otherwise. -/
theorem c7_history_bounded_batch_trim (s : RouterState) (pn mid : String)
    (t l now : Int) (b : Bool) (h : s.usageHistory.length ≤ 1000) :
    ((recordUsage s pn mid t l b now).usageHistory.length ≤ 1000) ∧
    ((recordUsage s pn mid t l b now).usageHistory =
      trimHistory (s.usageHistory ++ [usageRec now pn mid t l b])) ∧
    (1000 < s.usageHistory.length + 1 →
      (recordUsage s pn mid t l b now).usageHistory =
        (s.usageHistory ++ [usageRec now pn mid t l b]).drop 100) ∧
    (s.usageHistory.length + 1 ≤ 1000 →
      (recordUsage s pn mid t l b now).usageHistory =
        s.usageHistory ++ [usageRec now pn mid t l b]) := by
  have hrec : (recordUsage s pn mid t l b now).usageHistory =
      trimHistory (s.usageHistory ++ [usageRec now pn mid t l b]) := rfl
  have hlen : (s.usageHistory ++ [usageRec now pn mid t l b]).length
      = s.usageHistory.length + 1 := by
    simp
  refine ⟨?_, hrec, ?_, ?_⟩
  · rw [hrec]
    unfold trimHistory
    split
    · simp only [List.length_drop, hlen]
      omega
    · rename_i hgt
      rw [hlen] at hgt
      omega
  · intro hover
    rw [hrec]
    unfold trimHistory
    rw [if_pos]
    rw [hlen]
    omega
  · intro hunder
    rw [hrec]
    unfold trimHistory
    rw [if_neg]
    rw [hlen]
    omega

/-- Witness for C7 on an empty history. -/
theorem c7_history_bounded_batch_trim_witness :
    (recordUsage sW1 "w" "m1" 1 2 true 7).usageHistory.length ≤ 1000 ∧
    (recordUsage sW1 "w" "m1" 1 2 true 7).usageHistory =
      sW1.usageHistory ++ [usageRec 7 "w" "m1" 1 2 true] :=
  ⟨(c7_history_bounded_batch_trim sW1 "w" "m1" 1 2 7 true (by decide)).1,
   (c7_history_bounded_batch_trim sW1 "w" "m1" 1 2 7 true (by decide)).2.2.2 (by decide)⟩

/-- C8: `Route` never reads the quota pools: replacing the entire pool map
leaves every routing outcome unchanged. -/
theorem c8_route_ignores_quota_pools (s : RouterState)
    (qp : List (String × QuotaPool)) (mid : String) (n : Int) :
    Route { s with quotaPool := qp } mid n = Route s mid n := by
  cases s
  rfl

/-- C9: a provider declaring a zero daily request limit is never admissible
(its nonnegative used-request counter already meets the ceiling), hence never
returned by `Route`, even though the ranking's remaining-quota rule scores a
zero daily limit as unlimited (ratio 1). -/
theorem c9_zero_daily_limit_never_routed (s : RouterState) (p : Provider) (n : Int)
    (h0 : p.quota.requestsPerDay = 0) (hu : 0 ≤ p.quota.usedRequests) :
    isProviderAvailable s p n = false ∧ quotaRemaining p = 1 ∧
    (∀ mid, Route s mid n ≠ RouteResult.ok p) := by
  have hne : isProviderAvailable s p n = false := by
    unfold isProviderAvailable
    split
    · rfl
    · rw [if_pos]
      omega
  refine ⟨hne, ?_, ?_⟩
  · unfold quotaRemaining
    rw [if_pos h0]
  · intro mid hroute
    have := route_ok_available s mid n p hroute
    rw [hne] at this
    exact absurd this (by simp)

/-- Witness for C9 at a concrete zero-limit provider. -/
theorem c9_zero_daily_limit_never_routed_witness :
    isProviderAvailable sW1 pZero 4 = false ∧ quotaRemaining pZero = 1 ∧
    Route sW1 "m1" 4 ≠ RouteResult.ok pZero :=
  ⟨(c9_zero_daily_limit_never_routed sW1 pZero 4 (by decide) (by decide)).1,
   (c9_zero_daily_limit_never_routed sW1 pZero 4 (by decide) (by decide)).2.1,
   (c9_zero_daily_limit_never_routed sW1 pZero 4 (by decide) (by decide)).2.2 "m1"⟩

/-- C10: marking rare capabilities leaves the provider registry, the usage
history, the pool map and the configuration untouched, and rewrites a
singleton capability's index entry to carry `IsExclusive` and an embedded
model copy flagged `IsRare`. -/
theorem c10_identify_rare_frame (s : RouterState) :
    ((identifyRareModels s).providers = s.providers) ∧
    ((identifyRareModels s).usageHistory = s.usageHistory) ∧
    ((identifyRareModels s).quotaPool = s.quotaPool) ∧
    ((identifyRareModels s).config = s.config) ∧
    (∀ mid e, lookupA s.models mid = some [e] →
      lookupA (identifyRareModels s).models mid =
        some [{ e with isExclusive := true, model := { e.model with isRare := true } }]) := by
  refine ⟨rfl, rfl, rfl, rfl, ?_⟩
  intro mid e hm
  have : lookupA (identifyRareModels s).models mid = (lookupA s.models mid).map markEntry := by
    exact lookupA_map markEntry s.models mid
  rw [this, hm]
  rfl

/-- Witness for C10 on the pre-marking one-provider state. -/
theorem c10_identify_rare_frame_witness :
    (identifyRareModels sPre).providers = sPre.providers ∧
    lookupA (identifyRareModels sPre).models "R" =
      some [{ eR0 with isExclusive := true, model := { eR0.model with isRare := true } }] :=
  ⟨(c10_identify_rare_frame sPre).1,
   (c10_identify_rare_frame sPre).2.2.2.2 "R" eR0 (by decide)⟩

/-- C3 counterexample: provider `pC3` is the exclusive source of rare model
`R`, is active, below its raw daily ceiling, and declares no token ceiling,
and the request is for `R` itself — yet the admissibility check rejects it
(and `Route` for `R` fails), because the reserve clause fires without looking
at which capability is requested.  This refutes the claim that the reserved
fraction is withheld from non-rare requests only. -/
theorem c3_reserve_blocks_rare_request_counterexample :
    pC3.status = ProviderStatus.active ∧
    pC3.quota.usedRequests < pC3.quota.requestsPerDay ∧
    pC3.quota.tokensPerDay = 0 ∧
    lookupA sC3.rareModels "R" = some "p3" ∧
    lookupA sC3.models "R" = some [eR] ∧
    eR.isExclusive = true ∧ eR.providerName = "p3" ∧
    isProviderAvailable sC3 pC3 1 = false ∧
    Route sC3 "R" 1 = RouteResult.err RouteError.noAvailableProvider := by
  decide

/-- C3 amended: the admissibility check returns `false` exactly when the
provider's status is not `active`, or its used requests meet its daily
request ceiling, or a declared daily token ceiling would be exceeded by the
estimate, or the provider carries some rare capability and its used requests
meet `dailyRequestLimit - trunc(dailyRequestLimit * reserveFraction)` — the
reserve applying to every request, regardless of the capability requested. -/
theorem c3_admissibility_characterization (s : RouterState) (p : Provider) (n : Int) :
    isProviderAvailable s p n = false ↔
      (p.status ≠ ProviderStatus.active ∨
       p.quota.requestsPerDay ≤ p.quota.usedRequests ∨
       (0 < p.quota.tokensPerDay ∧ p.quota.tokensPerDay < p.quota.usedTokens + n) ∨
       (providerHasRareModels s p.name = true ∧
        p.quota.requestsPerDay -
            ratTrunc (((p.quota.requestsPerDay : Int) : ℚ) * s.config.quotaReservePercent)
          ≤ p.quota.usedRequests)) := by
  unfold isProviderAvailable
  repeat' split
  all_goals simp_all
  all_goals (first | tauto | omega)

/-- Witness for C3 at the concrete walled-off provider. -/
theorem c3_admissibility_characterization_witness :
    isProviderAvailable sC3 pC3 1 = false :=
  (c3_admissibility_characterization sC3 pC3 1).mpr
    (Or.inr (Or.inr (Or.inr ⟨by decide, by decide⟩)))

/-- One lexicographic step is asymmetric when its tail is. -/
theorem lexStep_asymm {α : Type} [LinearOrder α] {a b : α} {P Q : Prop}
    (h : a = b → P → Q → False)
    (h1 : a < b ∨ a = b ∧ P) (h2 : b < a ∨ b = a ∧ Q) : False := by
  rcases h1 with h1 | ⟨e1, hp⟩
  · rcases h2 with h2 | ⟨e2, hq⟩
    · exact absurd h2 (lt_asymm h1)
    · rw [e2] at h1
      exact lt_irrefl _ h1
  · rcases h2 with h2 | ⟨e2, hq⟩
    · rw [e1] at h2
      exact lt_irrefl _ h2
    · exact h e1 hp hq

/-- One lexicographic step is transitive when its tail is. -/
theorem lexStep_trans {α : Type} [LinearOrder α] {a b c : α} {P Q R : Prop}
    (h : P → Q → R)
    (h1 : a < b ∨ a = b ∧ P) (h2 : b < c ∨ b = c ∧ Q) : a < c ∨ a = c ∧ R := by
  rcases h1 with h1 | ⟨e1, hp⟩
  · rcases h2 with h2 | ⟨e2, hq⟩
    · exact Or.inl (lt_trans h1 h2)
    · exact Or.inl (e2 ▸ h1)
  · rcases h2 with h2 | ⟨e2, hq⟩
    · exact Or.inl (e1 ▸ h2)
    · exact Or.inr ⟨e1.trans e2, h hp hq⟩

/-- The lexicographic key order is asymmetric. -/
theorem keyLt_asymm (a b : Nat × ℚ × Int × ℚ × Int)
    (h1 : keyLt a b) (h2 : keyLt b a) : False := by
  obtain ⟨a1, a2, a3, a4, a5⟩ := a
  obtain ⟨b1, b2, b3, b4, b5⟩ := b
  unfold keyLt at h1 h2
  dsimp only at h1 h2
  refine lexStep_asymm (fun _ p q => ?_) h1 h2
  refine lexStep_asymm (fun _ p q => ?_) p q
  refine lexStep_asymm (fun _ p q => ?_) p q
  refine lexStep_asymm (fun _ p q => ?_) p q
  exact absurd q (lt_asymm p)

/-- The lexicographic key order is transitive. -/
theorem keyLt_trans (a b c : Nat × ℚ × Int × ℚ × Int)
    (h1 : keyLt a b) (h2 : keyLt b c) : keyLt a c := by
  obtain ⟨a1, a2, a3, a4, a5⟩ := a
  obtain ⟨b1, b2, b3, b4, b5⟩ := b
  obtain ⟨c1, c2, c3, c4, c5⟩ := c
  unfold keyLt at h1 h2 ⊢
  dsimp only at h1 h2 ⊢
  refine lexStep_trans (fun p q => ?_) h1 h2
  refine lexStep_trans (fun p q => ?_) p q
  refine lexStep_trans (fun p q => ?_) p q
  refine lexStep_trans (fun p q => ?_) p q
  exact lt_trans p q

/-- Rules 5 and 6 of the comparator decide exactly the cost/recency suffix of
the lexicographic key. -/
theorem rpCostStep_iff (s : RouterState) (x y : ModelAvailability × Provider) :
    rpCostStep s x y = true ↔
      ((if s.config.preferCheap then entryCost x else 0) <
         (if s.config.preferCheap then entryCost y else 0) ∨
       (if s.config.preferCheap then entryCost x else 0) =
         (if s.config.preferCheap then entryCost y else 0) ∧
        x.2.lastUsed < y.2.lastUsed) := by
  unfold rpCostStep
  cases hc : s.config.preferCheap
  · simp
  · by_cases he : entryCost x = entryCost y
    · simp [he]
    · simp only [if_true, if_neg he, decide_eq_true_iff]
      constructor
      · exact fun h => Or.inl h
      · rintro (h | ⟨h, _⟩)
        · exact h
        · exact absurd h he

/-- Rules 3 to 6 of the comparator decide exactly the quota/latency/cost/
recency suffix of the lexicographic key. -/
theorem rpQuotaStep_iff (s : RouterState) (x y : ModelAvailability × Provider) :
    rpQuotaStep s x y = true ↔
      (-(quotaRemaining x.2) < -(quotaRemaining y.2) ∨
       -(quotaRemaining x.2) = -(quotaRemaining y.2) ∧
        ((if s.config.preferFast then x.2.latency else 0) <
           (if s.config.preferFast then y.2.latency else 0) ∨
         (if s.config.preferFast then x.2.latency else 0) =
           (if s.config.preferFast then y.2.latency else 0) ∧
          ((if s.config.preferCheap then entryCost x else 0) <
             (if s.config.preferCheap then entryCost y else 0) ∨
           (if s.config.preferCheap then entryCost x else 0) =
             (if s.config.preferCheap then entryCost y else 0) ∧
            x.2.lastUsed < y.2.lastUsed))) := by
  unfold rpQuotaStep
  by_cases hq : quotaRemaining x.2 = quotaRemaining y.2
  · rw [if_pos hq, hq]
    simp only [lt_irrefl, neg_inj, false_or, true_and]
    cases hpf : s.config.preferFast
    · simpa using rpCostStep_iff s x y
    · by_cases hl : x.2.latency = y.2.latency
      · simp only [if_pos hl, if_true, hl, lt_irrefl, false_or, true_and]
        exact rpCostStep_iff s x y
      · simp only [if_neg hl, if_true, decide_eq_true_iff]
        constructor
        · exact fun h => Or.inl h
        · rintro (h | ⟨h, _⟩)
          · exact h
          · exact absurd h hl
  · rw [if_neg hq]
    simp only [decide_eq_true_iff, neg_lt_neg_iff, neg_inj]
    constructor
    · exact fun h => Or.inl h
    · rintro (h | ⟨h, _⟩)
      · exact h
      · exact absurd h hq

/-- Under the availability-index invariants (an exclusive entry's provider is
registered as a rare-model source, and at most one of two candidates for one
capability is exclusive), the comparator decides exactly the lexicographic
key order. -/
theorem rpLess_iff_keyLt (s : RouterState) (x y : ModelAvailability × Provider)
    (hx : x.1.isExclusive = true → providerHasRareModels s x.2.name = true)
    (hy : y.1.isExclusive = true → providerHasRareModels s y.2.name = true)
    (hxy : ¬(x.1.isExclusive = true ∧ y.1.isExclusive = true)) :
    rpLess s x y = true ↔ keyLt (rankKey s x) (rankKey s y) := by
  cases hbx : x.1.isExclusive <;> cases hby : y.1.isExclusive
  · cases hrx : providerHasRareModels s x.2.name <;>
      cases hry : providerHasRareModels s y.2.name
    · simpa [rpLess, rankKey, classRank, keyLt, hbx, hby, hrx, hry]
        using rpQuotaStep_iff s x y
    · simp [rpLess, rankKey, classRank, keyLt, hbx, hby, hrx, hry]
    · simp [rpLess, rankKey, classRank, keyLt, hbx, hby, hrx, hry]
    · simpa [rpLess, rankKey, classRank, keyLt, hbx, hby, hrx, hry]
        using rpQuotaStep_iff s x y
  · have hry : providerHasRareModels s y.2.name = true := hy hby
    cases hrx : providerHasRareModels s x.2.name <;>
      simp [rpLess, rankKey, classRank, keyLt, hbx, hby, hrx, hry]
  · have hrx : providerHasRareModels s x.2.name = true := hx hbx
    cases hry : providerHasRareModels s y.2.name <;>
      simp [rpLess, rankKey, classRank, keyLt, hbx, hby, hrx, hry]
  · exact absurd ⟨hbx, hby⟩ hxy

/-- C6 counterexample: two distinct candidates for one capability that agree
on every ranking criterion (no exclusivity, no rare burden, equal quota
ratio, latency, cost and last-used time) are unordered by the comparator in
both directions, so the comparator is not a total order and the tie is not
broken by any of its rules. -/
theorem c6_tied_candidates_unordered_counterexample :
    rpLess sTie (ea, pa) (eb, pb) = false ∧
    rpLess sTie (eb, pb) (ea, pa) = false ∧
    (ea, pa) ≠ (eb, pb) := by
  decide

/-- C6 amended: on candidate entries for one capability (at most one
exclusive entry, each exclusive entry's provider registered as a rare
source), the ranking comparator is asymmetric and transitive — a strict weak
order; candidates that agree on all six criteria remain mutually unordered,
so the order is not total. -/
theorem c6_comparator_strict_weak_order (s : RouterState)
    (x y z : ModelAvailability × Provider)
    (hx : x.1.isExclusive = true → providerHasRareModels s x.2.name = true)
    (hy : y.1.isExclusive = true → providerHasRareModels s y.2.name = true)
    (hz : z.1.isExclusive = true → providerHasRareModels s z.2.name = true)
    (hxy : ¬(x.1.isExclusive = true ∧ y.1.isExclusive = true))
    (hyz : ¬(y.1.isExclusive = true ∧ z.1.isExclusive = true))
    (hxz : ¬(x.1.isExclusive = true ∧ z.1.isExclusive = true)) :
    (rpLess s x y = true → rpLess s y x = false) ∧
    (rpLess s x y = true → rpLess s y z = true → rpLess s x z = true) := by
  constructor
  · intro hlt
    cases hv : rpLess s y x
    · rfl
    · exact (keyLt_asymm _ _ ((rpLess_iff_keyLt s x y hx hy hxy).mp hlt)
        ((rpLess_iff_keyLt s y x hy hx (fun hp => hxy ⟨hp.2, hp.1⟩)).mp hv)).elim
  · intro h1 h2
    exact (rpLess_iff_keyLt s x z hx hz hxz).mpr
      (keyLt_trans _ _ _ ((rpLess_iff_keyLt s x y hx hy hxy).mp h1)
        ((rpLess_iff_keyLt s y z hy hz hyz).mp h2))

/-- Witness for C6 on a three-candidate chain ordered by last-used time. -/
theorem c6_comparator_strict_weak_order_witness :
    rpLess sTie (eb, pb1) (ea, pa) = false ∧ rpLess sTie (ea, pa) (ec, pcv) = true :=
  ⟨(c6_comparator_strict_weak_order sTie (ea, pa) (eb, pb1) (ec, pcv)
      (by decide) (by decide) (by decide) (by decide) (by decide) (by decide)).1 (by decide),
   (c6_comparator_strict_weak_order sTie (ea, pa) (eb, pb1) (ec, pcv)
      (by decide) (by decide) (by decide) (by decide) (by decide) (by decide)).2
      (by decide) (by decide)⟩

end GoclitRouter
